import Mathlib

/-!
Verification development for the Hurricane SPY backtesting harness
(`backtest_hurricane.py`).  The definitions below are a shallow embedding of
the `HurricaneBacktest` class: prices are rationals, calendar dates are
integer day numbers (the ISO-string parsing of the source is an injective
renaming and is abstracted away), JSON dictionaries with possibly-missing
keys become structures of `Option` fields, and the Python behaviours
`dict[key]` (raises `KeyError` when absent) and `dict.get(key, default)`
are modelled by `Except` and `Option.getD` respectively.
-/

namespace Hurricane

/-- Calendar dates as integer day numbers; `timedelta(days = n)` arithmetic
on `datetime.date` is plain integer arithmetic on day numbers. -/
abbrev Date := Int

/-- One OHLCV row of `spy_data` (`load_spy_data`, lines 73-83). -/
structure Bar where
  «open» : ℚ
  high : ℚ
  low : ℚ
  close : ℚ
  volume : ℤ
deriving DecidableEq

/-- Python dictionary lookup `d.get(k)`: the value at the first matching key,
`none` when the key is absent. -/
def lookupKey {κ β : Type _} [BEq κ] (l : List (κ × β)) (k : κ) : Option β :=
  (l.find? (fun p => p.1 == k)).map (·.2)

/-- One per-timeframe forecast dictionary, as stored in
`prediction["predictions"][tf]`.  Every field is optional because offline
predictions are arbitrary JSON objects; `evaluate_prediction` accesses all
six keys with `pred[...]`, which raises `KeyError` on a missing key. -/
structure TimeframeForecast where
  direction : Option String
  target : Option ℚ
  stop_loss : Option ℚ
  cone_upper : Option ℚ
  cone_lower : Option ℚ
  confidence : Option ℚ
deriving DecidableEq

/-- Python truthiness of the forecast dictionary (`if not pred:` in
`evaluate_prediction`, line 410): an empty dictionary is falsy. -/
def TimeframeForecast.isEmpty (f : TimeframeForecast) : Bool :=
  f.direction.isNone && f.target.isNone && f.stop_loss.isNone &&
    f.cone_upper.isNone && f.cone_lower.isNone && f.confidence.isNone

/-- One prediction record (one per date).  `regime_state`/`regime_current`
model the nested `regime` dictionary read at line 451. -/
structure Prediction where
  currentPrice : Option ℚ
  current_price : Option ℚ
  regime_state : Option String
  regime_current : Option String
  predictions : List (String × TimeframeForecast)
deriving DecidableEq

/-- Entry price, line 415:
`prediction.get("currentPrice") or prediction.get("current_price", 0)`.
Python `or` falls through on a falsy left operand (absent key or value 0). -/
def entryPrice (p : Prediction) : ℚ :=
  match p.currentPrice with
  | some v => if v = 0 then p.current_price.getD 0 else v
  | none => p.current_price.getD 0

/-- Python string truthiness: `none` for an absent key or an empty string. -/
def strTruthy (s : Option String) : Option String :=
  match s with
  | some s => if s = "" then none else some s
  | none => none

/-- Regime label, line 451:
`prediction.get("regime", {}).get("state") or ...get("current") or "UNKNOWN"`. -/
def regimeOf (p : Prediction) : String :=
  ((strTruthy p.regime_state).orElse (fun _ => strTruthy p.regime_current)).getD
    "UNKNOWN"

/-- Direction normalization, line 425:
`1 if direction == "BULLISH" else -1 if direction == "BEARISH" else 0`. -/
def normalizeDirection (dir : String) : ℤ :=
  if dir = "BULLISH" then 1 else if dir = "BEARISH" then -1 else 0

/-- The intraday subset of the timeframe catalog (line 419). -/
def intradayTimeframes : List String := ["1m", "5m", "15m"]

/-- Outcome resolution, lines 419-422: intraday timeframes are scored against
the bar's high when the forecast direction is `"BULLISH"` and against the low
otherwise; all other timeframes are scored against the close. -/
def resolveActualPrice (actual : Bar) (timeframe : String) (dir : String) : ℚ :=
  if timeframe ∈ intradayTimeframes then
    (if dir = "BULLISH" then actual.high else actual.low)
  else actual.close

/-- Direction correctness, lines 428-429. -/
def directionCorrectCalc (actual_move : ℚ) (predicted_direction : ℤ) : Bool :=
  (decide (0 < actual_move) && decide (0 < predicted_direction)) ||
    (decide (actual_move < 0) && decide (predicted_direction < 0))

/-- R-multiple computation, lines 431-441. -/
def rMultipleCalc (entry_price stop actual_move : ℚ) (predicted_direction : ℤ)
    (direction_correct : Bool) : ℚ :=
  if predicted_direction ≠ 0 then
    let risk := |entry_price - stop|
    let reward := |actual_move|
    let r := if 0 < risk then reward / risk else 0
    if direction_correct then r else -(min 1 r)
  else 0

/-- Cone percentile, lines 445-446: positions the realized price within the
forecast interval, degrading to the neutral 0.5 on a non-positive width. -/
def conePercentileCalc (lo hi actual_price : ℚ) : ℚ :=
  if 0 < hi - lo then (actual_price - lo) / (hi - lo) else 0.5

/-- The per-trade dictionary returned by `evaluate_prediction`, lines 448-462. -/
structure FitRecord where
  date : Date
  timeframe : String
  regime : String
  direction_predicted : String
  direction_correct : Bool
  entry_price : ℚ
  target : ℚ
  stop_loss : ℚ
  actual_price : ℚ
  r_multiple : ℚ
  within_cone : Bool
  cone_percentile : ℚ
  confidence : ℚ
deriving DecidableEq

/-- The successful branch of `evaluate_prediction` (lines 413-462), once the
bar has been found and all six forecast keys are present. -/
def scoreForecast (date : Date) (timeframe regime : String) (actual : Bar)
    (entry_price : ℚ) (dir : String) (tgt stop lo hi conf : ℚ) : FitRecord :=
  let actual_price := resolveActualPrice actual timeframe dir
  let actual_move := actual_price - entry_price
  let predicted_direction := normalizeDirection dir
  let direction_correct := directionCorrectCalc actual_move predicted_direction
  { date := date
    timeframe := timeframe
    regime := regime
    direction_predicted := dir
    direction_correct := direction_correct
    entry_price := entry_price
    target := tgt
    stop_loss := stop
    actual_price := actual_price
    r_multiple := rMultipleCalc entry_price stop actual_move predicted_direction
      direction_correct
    within_cone := decide (lo ≤ actual_price) && decide (actual_price ≤ hi)
    cone_percentile := conePercentileCalc lo hi actual_price
    confidence := conf }

/-- `HurricaneBacktest.evaluate_prediction`, lines 402-462.
`Except.ok none` models the silent `return None` skips (no bar for the date,
no forecast for the timeframe, empty forecast dictionary); `Except.error`
models a raised `KeyError` from `pred["direction"]`, `pred["stop_loss"]`,
`pred["cone_lower"]`, `pred["cone_upper"]`, `pred["target"]` or
`pred["confidence"]` when the key is absent. -/
def evaluate_prediction (spy_data : List (Date × Bar)) (date : Date)
    (timeframe : String) (prediction : Prediction) :
    Except String (Option FitRecord) :=
  match lookupKey spy_data date with
  | none => .ok none
  | some actual =>
    match lookupKey prediction.predictions timeframe with
    | none => .ok none
    | some pred =>
      if pred.isEmpty then .ok none
      else
        match pred.direction, pred.target, pred.stop_loss, pred.cone_upper,
            pred.cone_lower, pred.confidence with
        | some dir, some tgt, some stop, some hi, some lo, some conf =>
          .ok (some (scoreForecast date timeframe (regimeOf prediction) actual
            (entryPrice prediction) dir tgt stop lo hi conf))
        | _, _, _, _, _, _ => .error "KeyError"

/-- The four-bucket cone-calibration histogram (`results["cone_calibration"]`,
lines 47-52).  Counts live in ℚ because `finalize_statistics` divides the
buckets in place. -/
structure ConeCalibration where
  within_10pct : ℚ
  within_25pct : ℚ
  within_50pct : ℚ
  outside_50pct : ℚ
deriving DecidableEq

/-- Per-timeframe sub-table of `results["by_timeframe"]` (lines 506-519).
The derived-rate keys are absent (`none`) until `finalize_statistics`
inserts them. -/
structure TimeframeStats where
  trades : ℕ
  wins : ℕ
  total_r : ℚ
  within_cone : ℕ
  win_rate : Option ℚ
  avg_r : Option ℚ
  cone_accuracy : Option ℚ
deriving DecidableEq

/-- Per-regime sub-table of `results["by_regime"]` (lines 522-533). -/
structure RegimeStats where
  trades : ℕ
  wins : ℕ
  total_r : ℚ
  win_rate : Option ℚ
  avg_r : Option ℚ
deriving DecidableEq

/-- The `self.results` accumulator (lines 39-53 plus the keys
`finalize_statistics` adds). -/
structure Results where
  total_trades : ℕ
  winning_trades : ℕ
  losing_trades : ℕ
  total_r_multiple : ℚ
  avg_r_multiple : ℚ
  win_rate : Option ℚ
  by_timeframe : List (String × TimeframeStats)
  by_regime : List (String × RegimeStats)
  cone_calibration : ConeCalibration
deriving DecidableEq

/-- The initial accumulator built in `__init__`, lines 39-53. -/
def initialResults : Results :=
  { total_trades := 0
    winning_trades := 0
    losing_trades := 0
    total_r_multiple := 0
    avg_r_multiple := 0
    win_rate := none
    by_timeframe := []
    by_regime := []
    cone_calibration :=
      { within_10pct := 0, within_25pct := 0, within_50pct := 0
        outside_50pct := 0 } }

/-- Python dictionary update `d.setdefault(k, init); d[k] = f(d[k])`: a new
key is appended with the zeroed sub-table before being updated in place. -/
def updateAssoc {β : Type _} (l : List (String × β)) (k : String) (init : β)
    (f : β → β) : List (String × β) :=
  match l with
  | [] => [(k, f init)]
  | (k', v) :: rest =>
    if k' = k then (k', f v) :: rest else (k', v) :: updateAssoc rest k init f

/-- The zeroed per-timeframe sub-table created at lines 507-512. -/
def zeroTimeframeStats : TimeframeStats :=
  { trades := 0, wins := 0, total_r := 0, within_cone := 0
    win_rate := none, avg_r := none, cone_accuracy := none }

/-- The zeroed per-regime sub-table created at lines 524-528. -/
def zeroRegimeStats : RegimeStats :=
  { trades := 0, wins := 0, total_r := 0, win_rate := none, avg_r := none }

/-- One trade folded into a per-timeframe sub-table (lines 514-519). -/
def foldTimeframe (trade : FitRecord) (s : TimeframeStats) : TimeframeStats :=
  { s with
    trades := s.trades + 1
    wins := s.wins + (if trade.direction_correct then 1 else 0)
    total_r := s.total_r + trade.r_multiple
    within_cone := s.within_cone + (if trade.within_cone then 1 else 0) }

/-- One trade folded into a per-regime sub-table (lines 530-533). -/
def foldRegime (trade : FitRecord) (s : RegimeStats) : RegimeStats :=
  { s with
    trades := s.trades + 1
    wins := s.wins + (if trade.direction_correct then 1 else 0)
    total_r := s.total_r + trade.r_multiple }

/-- Cone-calibration classification, lines 535-544: the first three tests are
independent `if` statements, only the last one has an `else`. -/
def foldCone (c : ConeCalibration) (percentile : ℚ) : ConeCalibration :=
  let c := if 0.4 ≤ percentile ∧ percentile ≤ 0.6 then
      { c with within_10pct := c.within_10pct + 1 } else c
  let c := if 0.25 ≤ percentile ∧ percentile ≤ 0.75 then
      { c with within_25pct := c.within_25pct + 1 } else c
  if 0 ≤ percentile ∧ percentile ≤ 1 then
    { c with within_50pct := c.within_50pct + 1 }
  else
    { c with outside_50pct := c.outside_50pct + 1 }

/-- `HurricaneBacktest.update_statistics`, lines 493-544. -/
def update_statistics (results : Results) (trade : FitRecord) : Results :=
  { results with
    total_trades := results.total_trades + 1
    winning_trades :=
      results.winning_trades + (if trade.direction_correct then 1 else 0)
    losing_trades :=
      results.losing_trades + (if trade.direction_correct then 0 else 1)
    total_r_multiple := results.total_r_multiple + trade.r_multiple
    by_timeframe := updateAssoc results.by_timeframe trade.timeframe
      zeroTimeframeStats (foldTimeframe trade)
    by_regime := updateAssoc results.by_regime trade.regime zeroRegimeStats
      (foldRegime trade)
    cone_calibration := foldCone results.cone_calibration trade.cone_percentile }

/-- Finalization of one per-timeframe sub-table (lines 553-557). -/
def finalizeTimeframe (s : TimeframeStats) : TimeframeStats :=
  if 0 < s.trades then
    { s with
      win_rate := some ((s.wins : ℚ) / (s.trades : ℚ))
      avg_r := some (s.total_r / (s.trades : ℚ))
      cone_accuracy := some ((s.within_cone : ℚ) / (s.trades : ℚ)) }
  else s

/-- Finalization of one per-regime sub-table (lines 560-563). -/
def finalizeRegime (s : RegimeStats) : RegimeStats :=
  if 0 < s.trades then
    { s with
      win_rate := some ((s.wins : ℚ) / (s.trades : ℚ))
      avg_r := some (s.total_r / (s.trades : ℚ)) }
  else s

/-- Cone-calibration normalization (lines 565-569): every bucket is divided in
place by `total_cone_checks`, the sum of the four bucket counts. -/
def finalizeCone (c : ConeCalibration) : ConeCalibration :=
  if 0 < c.within_10pct + c.within_25pct + c.within_50pct + c.outside_50pct then
    { within_10pct := c.within_10pct /
        (c.within_10pct + c.within_25pct + c.within_50pct + c.outside_50pct)
      within_25pct := c.within_25pct /
        (c.within_10pct + c.within_25pct + c.within_50pct + c.outside_50pct)
      within_50pct := c.within_50pct /
        (c.within_10pct + c.within_25pct + c.within_50pct + c.outside_50pct)
      outside_50pct := c.outside_50pct /
        (c.within_10pct + c.within_25pct + c.within_50pct + c.outside_50pct) }
  else c

/-- `HurricaneBacktest.finalize_statistics`, lines 546-569. -/
def finalize_statistics (r : Results) : Results :=
  if 0 < r.total_trades then
    { r with
      avg_r_multiple := r.total_r_multiple / (r.total_trades : ℚ)
      win_rate := some ((r.winning_trades : ℚ) / (r.total_trades : ℚ))
      by_timeframe := r.by_timeframe.map (fun p => (p.1, finalizeTimeframe p.2))
      by_regime := r.by_regime.map (fun p => (p.1, finalizeRegime p.2))
      cone_calibration := finalizeCone r.cone_calibration }
  else r

/-- The outcome of `_apply_date_filters`: the surviving predictions, the
final `self.start_date`/`self.end_date`, and the `missing_start`/`missing_end`
day counts reported in the limited-history message. -/
structure FilterOutcome (α : Type _) where
  predictions : List (Date × α)
  start_date : Option Date
  end_date : Option Date
  missing_start : Option ℤ
  missing_end : Option ℤ
deriving DecidableEq

/-- Months clamp from `__init__` line 58: `self.months = max(1, months)`. -/
def clampMonths (months : ℤ) : ℤ := max 1 months

/-- Smallest prediction date: `sorted(keys)[0]` (lines 141-142, 159). -/
def earliestKey {α : Type _} (d0 : Date) (rest : List (Date × α)) : Date :=
  rest.foldl (fun a p => min a p.1) d0

/-- Largest prediction date: `sorted(keys)[-1]` (lines 141-142, 160). -/
def latestKey {α : Type _} (d0 : Date) (rest : List (Date × α)) : Date :=
  rest.foldl (fun a p => max a p.1) d0

/-- `HurricaneBacktest._apply_date_filters`, lines 136-209, together with the
months clamp performed in `__init__`.  Predictions are the (date, payload)
entries of `self.predictions`; the returned `start_date`/`end_date` are the
fields after the call (defaulted, and clamped unless the clamped window is
empty, in which case the predictions are dropped and the defaulted bounds are
kept as they were). -/
def apply_date_filters {α : Type _} (predictions : List (Date × α))
    (start_date end_date : Option Date) (months : ℤ) : FilterOutcome α :=
  match predictions with
  | [] => ⟨predictions, start_date, end_date, none, none⟩
  | (d0, v0) :: rest =>
    let earliest := earliestKey d0 rest
    let latest := latestKey d0 rest
    let e := end_date.getD latest
    let s := start_date.getD (e - 30 * clampMonths months)
    let clamped_start := max s earliest
    let clamped_end := min e latest
    if clamped_end < clamped_start then
      ⟨[], some s, some e, none, none⟩
    else
      ⟨((d0, v0) :: rest).filter
          (fun p => decide (clamped_start ≤ p.1) && decide (p.1 ≤ clamped_end)),
        some clamped_start, some clamped_end,
        if s < clamped_start then some (clamped_start - s) else none,
        if clamped_end < e then some (e - clamped_end) else none⟩

/-- The timeframe-forecast dictionary of one API response
(`parse_api_prediction`, lines 358-369): every key read with `.get`. -/
structure ApiTimeframeData where
  direction : Option String
  target : Option ℚ
  stopLoss : Option ℚ
  upperBound : Option ℚ
  lowerBound : Option ℚ
  confidence : Option ℚ
  score : Option ℚ
deriving DecidableEq

/-- Python truthiness of the raw API forecast dictionary (`if tf_data:`,
line 360). -/
def ApiTimeframeData.isEmpty (t : ApiTimeframeData) : Bool :=
  t.direction.isNone && t.target.isNone && t.stopLoss.isNone &&
    t.upperBound.isNone && t.lowerBound.isNone && t.confidence.isNone &&
    t.score.isNone

/-- One timeframe entry of `parse_api_prediction`, lines 361-368: every field
is defaulted with `.get`, confidence falling back to `score` and then 0.5. -/
def parseTimeframeData (t : ApiTimeframeData) : TimeframeForecast :=
  { direction := some (t.direction.getD "NEUTRAL")
    target := some (t.target.getD 0)
    stop_loss := some (t.stopLoss.getD 0)
    cone_upper := some (t.upperBound.getD 0)
    cone_lower := some (t.lowerBound.getD 0)
    confidence := some (t.confidence.getD (t.score.getD 0.5)) }

/-- The timeframe loop of `parse_api_prediction`, lines 358-369: catalog
order, skipping absent and empty (falsy) entries. -/
def parse_forecasts (forecast_root : List (String × ApiTimeframeData)) :
    List (String × TimeframeForecast) :=
  (["1m", "5m", "15m", "1h", "4h", "1d"]).filterMap (fun tf =>
    match lookupKey forecast_root tf with
    | none => none
    | some t => if t.isEmpty then none else some (tf, parseTimeframeData t))

/-! Helper lemmas about the fit computations. -/

lemma directionCorrectCalc_eq_false_iff (mv : ℚ) (pd : ℤ) :
    directionCorrectCalc mv pd = false ↔
      ¬((0 < mv ∧ 0 < pd) ∨ (mv < 0 ∧ pd < 0)) := by
  simp [directionCorrectCalc]

lemma rMultipleCalc_wrong_bounds (e stop mv : ℚ) (pd : ℤ) (h : pd ≠ 0) :
    -1 ≤ rMultipleCalc e stop mv pd false ∧ rMultipleCalc e stop mv pd false ≤ 0 := by
  unfold rMultipleCalc
  rw [if_pos h]
  simp only [Bool.false_eq_true, if_false]
  have hr : (0 : ℚ) ≤ if 0 < |e - stop| then |mv| / |e - stop| else 0 := by
    split
    · exact div_nonneg (abs_nonneg _) (abs_nonneg _)
    · exact le_refl 0
  constructor
  · have : min 1 (if 0 < |e - stop| then |mv| / |e - stop| else 0) ≤ 1 :=
      min_le_left _ _
    linarith
  · have : (0 : ℚ) ≤ min 1 (if 0 < |e - stop| then |mv| / |e - stop| else 0) :=
      le_min zero_le_one hr
    linarith

lemma rMultipleCalc_zero_risk (e mv : ℚ) (pd : ℤ) (dc : Bool) :
    rMultipleCalc e e mv pd dc = 0 := by
  unfold rMultipleCalc
  have h0 : ¬(0 : ℚ) < |e - e| := by simp
  cases dc <;> split <;> simp [h0]

lemma conePercentileCalc_degenerate (lo hi ap : ℚ) (h : hi ≤ lo) :
    conePercentileCalc lo hi ap = 0.5 := by
  unfold conePercentileCalc
  rw [if_neg (by linarith)]

/-- Characterization of the successful outcome of `evaluate_prediction`: a fit
record is produced exactly by `scoreForecast` on the located bar and the six
present forecast fields. -/
lemma evaluate_prediction_ok_some {spy_data : List (Date × Bar)} {date : Date}
    {timeframe : String} {p : Prediction} {rec : FitRecord}
    (h : evaluate_prediction spy_data date timeframe p = .ok (some rec)) :
    ∃ actual f dir tgt stop hi lo conf,
      lookupKey spy_data date = some actual ∧
      lookupKey p.predictions timeframe = some f ∧
      f.direction = some dir ∧ f.target = some tgt ∧ f.stop_loss = some stop ∧
      f.cone_upper = some hi ∧ f.cone_lower = some lo ∧
      f.confidence = some conf ∧
      rec = scoreForecast date timeframe (regimeOf p) actual (entryPrice p)
        dir tgt stop lo hi conf := by
  unfold evaluate_prediction at h
  split at h
  · exact absurd h (by simp)
  rename_i actual hactual
  split at h
  · exact absurd h (by simp)
  rename_i f hf
  split at h
  · exact absurd h (by simp)
  split at h
  · rename_i dir tgt stop hi lo conf hdir htgt hstop hhi hlo hconf
    refine ⟨actual, f, dir, tgt, stop, hi, lo, conf, hactual, hf, hdir, htgt,
      hstop, hhi, hlo, hconf, ?_⟩
    simpa using h.symm
  · exact absurd h (by simp)

lemma scoreForecast_r_multiple (date : Date) (timeframe regime : String)
    (actual : Bar) (entry_price : ℚ) (dir : String) (tgt stop lo hi conf : ℚ) :
    (scoreForecast date timeframe regime actual entry_price dir tgt stop lo hi
        conf).r_multiple =
      rMultipleCalc entry_price stop
        (resolveActualPrice actual timeframe dir - entry_price)
        (normalizeDirection dir)
        (directionCorrectCalc
          (resolveActualPrice actual timeframe dir - entry_price)
          (normalizeDirection dir)) := rfl

lemma scoreForecast_direction_correct (date : Date) (timeframe regime : String)
    (actual : Bar) (entry_price : ℚ) (dir : String) (tgt stop lo hi conf : ℚ) :
    (scoreForecast date timeframe regime actual entry_price dir tgt stop lo hi
        conf).direction_correct =
      directionCorrectCalc
        (resolveActualPrice actual timeframe dir - entry_price)
        (normalizeDirection dir) := rfl

lemma rMultipleCalc_wrong_pos_risk (e stop mv : ℚ) (pd : ℤ) (hpd : pd ≠ 0)
    (hrisk : 0 < |e - stop|) :
    rMultipleCalc e stop mv pd false = -(min 1 (|mv| / |e - stop|)) := by
  unfold rMultipleCalc
  rw [if_pos hpd]
  simp only [Bool.false_eq_true, if_false, if_pos hrisk]

/-! Scenario B of the specification: BULLISH prediction, entry 580.50,
stop 580.25, actual close 579.00, evaluated on a non-intraday timeframe. -/

/-- Actual bar for Scenario B: close 579.00. -/
def scenarioB_bar : Bar := ⟨580, 581, 578.5, 579, 1000⟩

/-- Scenario B forecast: BULLISH with stop 580.25 and cone [578, 582]. -/
def scenarioB_forecast : TimeframeForecast :=
  ⟨some "BULLISH", some 581, some 580.25, some 582, some 578, some 0.8⟩

/-- Scenario B prediction with entry price 580.50 on the 1d timeframe. -/
def scenarioB_prediction : Prediction :=
  ⟨none, some 580.5, none, none, [("1d", scenarioB_forecast)]⟩

/-- The fit record Scenario B evaluates to. -/
def scenarioB_record : FitRecord :=
  scoreForecast 0 "1d" "UNKNOWN" scenarioB_bar 580.5 "BULLISH" 581 580.25 578
    582 0.8

lemma scenarioB_eval :
    evaluate_prediction [(0, scenarioB_bar)] 0 "1d" scenarioB_prediction =
      .ok (some scenarioB_record) := rfl

lemma scenarioB_direction_correct :
    scenarioB_record.direction_correct = false := by
  have h1 : resolveActualPrice scenarioB_bar "1d" "BULLISH" = 579 := rfl
  have h2 : normalizeDirection "BULLISH" = 1 := rfl
  unfold scenarioB_record
  rw [scoreForecast_direction_correct, h1, h2, directionCorrectCalc_eq_false_iff]
  norm_num

lemma scenarioB_r_multiple : scenarioB_record.r_multiple = -1 := by
  have h1 : resolveActualPrice scenarioB_bar "1d" "BULLISH" = 579 := rfl
  have h2 : normalizeDirection "BULLISH" = 1 := rfl
  have h3 : directionCorrectCalc ((579 : ℚ) - 580.5) 1 = false := by
    rw [directionCorrectCalc_eq_false_iff]; norm_num
  unfold scenarioB_record
  rw [scoreForecast_r_multiple, h1, h2, h3,
    rMultipleCalc_wrong_pos_risk _ _ _ _ (by norm_num)
      (by rw [show |(580.5 : ℚ) - 580.25| = 1/4 by norm_num]; norm_num),
    show |(579 : ℚ) - 580.5| = 3/2 by norm_num,
    show |(580.5 : ℚ) - 580.25| = 1/4 by norm_num]
  norm_num

/-- C1: for every evaluated prediction whose direction was wrong
(`direction_correct` false) with a nonzero normalized predicted direction,
the r_multiple lies in [-1, 0]; moreover Scenario B (entry 580.50,
stop 580.25, actual close 579.00) evaluates with direction_correct false and
its raw reward/risk ratio 6.0 capped and negated to r_multiple = -1. -/
theorem c1_wrong_direction_r_multiple_in_unit_interval
    (spy_data : List (Date × Bar)) (date : Date) (timeframe : String)
    (p : Prediction) (rec : FitRecord)
    (h : evaluate_prediction spy_data date timeframe p = .ok (some rec))
    (hwrong : rec.direction_correct = false)
    (hdir : normalizeDirection rec.direction_predicted ≠ 0) :
    (-1 ≤ rec.r_multiple ∧ rec.r_multiple ≤ 0) ∧
      (evaluate_prediction [(0, scenarioB_bar)] 0 "1d" scenarioB_prediction =
          .ok (some scenarioB_record) ∧
        scenarioB_record.direction_correct = false ∧
        scenarioB_record.r_multiple = -1) := by
  refine ⟨?_, scenarioB_eval, scenarioB_direction_correct, scenarioB_r_multiple⟩
  obtain ⟨actual, f, dir, tgt, stop, hi, lo, conf, _, _, _, _, _, _, _, _,
    hrec⟩ := evaluate_prediction_ok_some h
  subst hrec
  rw [scoreForecast_direction_correct] at hwrong
  rw [scoreForecast_r_multiple, hwrong]
  exact rMultipleCalc_wrong_bounds _ _ _ _ hdir

/-- Witness for C1 at Scenario B. -/
theorem c1_witness :
    ((-1 ≤ scenarioB_record.r_multiple ∧ scenarioB_record.r_multiple ≤ 0) ∧
      (evaluate_prediction [(0, scenarioB_bar)] 0 "1d" scenarioB_prediction =
          .ok (some scenarioB_record) ∧
        scenarioB_record.direction_correct = false ∧
        scenarioB_record.r_multiple = -1)) :=
  c1_wrong_direction_r_multiple_in_unit_interval [(0, scenarioB_bar)] 0 "1d"
    scenarioB_prediction scenarioB_record scenarioB_eval
    scenarioB_direction_correct (by decide)

/-- C2: a forecast interval with upper bound at most the lower bound
(degenerate cone) evaluates without an exception and yields the neutral cone
percentile 0.5. -/
theorem c2_degenerate_cone_neutral_percentile
    (spy_data : List (Date × Bar)) (date : Date) (timeframe : String)
    (p : Prediction) (actual : Bar) (f : TimeframeForecast) (dir : String)
    (tgt stop hi lo conf : ℚ)
    (hactual : lookupKey spy_data date = some actual)
    (hf : lookupKey p.predictions timeframe = some f)
    (hdir : f.direction = some dir) (htgt : f.target = some tgt)
    (hstop : f.stop_loss = some stop) (hhi : f.cone_upper = some hi)
    (hlo : f.cone_lower = some lo) (hconf : f.confidence = some conf)
    (hdeg : hi ≤ lo) :
    evaluate_prediction spy_data date timeframe p =
      .ok (some (scoreForecast date timeframe (regimeOf p) actual
        (entryPrice p) dir tgt stop lo hi conf)) ∧
      (scoreForecast date timeframe (regimeOf p) actual (entryPrice p) dir tgt
        stop lo hi conf).cone_percentile = 0.5 := by
  have hne : f.isEmpty = false := by
    unfold TimeframeForecast.isEmpty
    rw [hdir]
    simp
  constructor
  · simp [evaluate_prediction, hactual, hf, hne, hdir, htgt, hstop, hhi, hlo,
      hconf]
  · exact conePercentileCalc_degenerate _ _ _ hdeg

/-- Scenario for C2: a forecast whose cone bounds are inverted ([581, 579]). -/
def c2_forecast : TimeframeForecast :=
  ⟨some "BULLISH", some 581, some 580.25, some 579, some 581, some 0.8⟩

/-- Prediction holding the degenerate-cone forecast on the 1h timeframe. -/
def c2_prediction : Prediction :=
  ⟨none, some 580.5, none, none, [("1h", c2_forecast)]⟩

/-- Witness for C2 on the inverted cone [581, 579]. -/
theorem c2_witness :
    evaluate_prediction [(0, scenarioB_bar)] 0 "1h" c2_prediction =
      .ok (some (scoreForecast 0 "1h" (regimeOf c2_prediction) scenarioB_bar
        (entryPrice c2_prediction) "BULLISH" 581 580.25 581 579 0.8)) ∧
      (scoreForecast 0 "1h" (regimeOf c2_prediction) scenarioB_bar
        (entryPrice c2_prediction) "BULLISH" 581 580.25 581 579
        0.8).cone_percentile = 0.5 :=
  c2_degenerate_cone_neutral_percentile [(0, scenarioB_bar)] 0 "1h"
    c2_prediction scenarioB_bar c2_forecast "BULLISH" 581 580.25 579 581 0.8
    rfl rfl rfl rfl rfl rfl rfl rfl (by norm_num)

/-- C7: whenever the entry price equals the stop price (zero risk), the
computed r_multiple is 0, regardless of the realized move and of direction
correctness. -/
theorem c7_zero_risk_zero_r_multiple
    (spy_data : List (Date × Bar)) (date : Date) (timeframe : String)
    (p : Prediction) (rec : FitRecord)
    (h : evaluate_prediction spy_data date timeframe p = .ok (some rec))
    (hzero : rec.entry_price = rec.stop_loss) :
    rec.r_multiple = 0 := by
  obtain ⟨actual, f, dir, tgt, stop, hi, lo, conf, _, _, _, _, _, _, _, _,
    hrec⟩ := evaluate_prediction_ok_some h
  subst hrec
  have he : entryPrice p = stop := hzero
  rw [scoreForecast_r_multiple, he]
  exact rMultipleCalc_zero_risk _ _ _ _

/-- Scenario for C7: entry price and stop are both 580.50, BEARISH forecast,
while the close moves to 579. -/
def c7_forecast : TimeframeForecast :=
  ⟨some "BEARISH", some 578, some 580.5, some 582, some 578, some 0.8⟩

/-- Prediction with entry equal to stop. -/
def c7_prediction : Prediction :=
  ⟨none, some 580.5, none, none, [("1d", c7_forecast)]⟩

/-- Fit record produced by the zero-risk scenario. -/
def c7_record : FitRecord :=
  scoreForecast 0 "1d" "UNKNOWN" scenarioB_bar 580.5 "BEARISH" 578 580.5 578
    582 0.8

/-- Witness for C7 at the zero-risk scenario. -/
theorem c7_witness : c7_record.r_multiple = 0 :=
  c7_zero_risk_zero_r_multiple [(0, scenarioB_bar)] 0 "1d" c7_prediction
    c7_record rfl rfl

/-- C10: for the intraday timeframes (1m, 5m, 15m) the outcome resolution
uses the bar's low for every predicted direction other than "BULLISH" —
including "NEUTRAL" — and the bar's high for "BULLISH"; non-intraday
timeframes are resolved against the close. -/
theorem c10_intraday_nonbullish_resolves_to_low
    (spy_data : List (Date × Bar)) (date : Date) (timeframe : String)
    (p : Prediction) (rec : FitRecord) (actual : Bar)
    (hactual : lookupKey spy_data date = some actual)
    (h : evaluate_prediction spy_data date timeframe p = .ok (some rec)) :
    (timeframe ∈ intradayTimeframes → rec.direction_predicted ≠ "BULLISH" →
      rec.actual_price = actual.low) ∧
    (timeframe ∈ intradayTimeframes → rec.direction_predicted = "BULLISH" →
      rec.actual_price = actual.high) ∧
    (timeframe ∉ intradayTimeframes → rec.actual_price = actual.close) := by
  obtain ⟨actual', f, dir, tgt, stop, hi, lo, conf, hactual', _, _, _, _, _, _,
    _, hrec⟩ := evaluate_prediction_ok_some h
  rw [hactual] at hactual'
  have hae : actual = actual' := by injection hactual'
  subst hae
  subst hrec
  refine ⟨fun hin hnb => ?_, fun hin hb => ?_, fun hout => ?_⟩
  · show resolveActualPrice actual timeframe dir = actual.low
    have hdir : dir ≠ "BULLISH" := hnb
    unfold resolveActualPrice
    rw [if_pos hin, if_neg hdir]
  · show resolveActualPrice actual timeframe dir = actual.high
    have hdir : dir = "BULLISH" := hb
    unfold resolveActualPrice
    rw [if_pos hin, if_pos hdir]
  · show resolveActualPrice actual timeframe dir = actual.close
    unfold resolveActualPrice
    rw [if_neg hout]

/-- Scenario for C10: NEUTRAL forecast on the intraday 5m timeframe. -/
def c10_forecast : TimeframeForecast :=
  ⟨some "NEUTRAL", some 580.5, some 579.5, some 582, some 579, some 0.68⟩

/-- Prediction carrying the neutral intraday forecast. -/
def c10_prediction : Prediction :=
  ⟨none, some 580.5, none, none, [("5m", c10_forecast)]⟩

/-- Fit record produced by the neutral intraday scenario. -/
def c10_record : FitRecord :=
  scoreForecast 0 "5m" "UNKNOWN" scenarioB_bar 580.5 "NEUTRAL" 580.5 579.5 579
    582 0.68

/-- Witness for C10 at the neutral intraday scenario. -/
theorem c10_witness :
    ("5m" ∈ intradayTimeframes → c10_record.direction_predicted ≠ "BULLISH" →
      c10_record.actual_price = scenarioB_bar.low) ∧
    ("5m" ∈ intradayTimeframes → c10_record.direction_predicted = "BULLISH" →
      c10_record.actual_price = scenarioB_bar.high) ∧
    ("5m" ∉ intradayTimeframes → c10_record.actual_price =
      scenarioB_bar.close) :=
  c10_intraday_nonbullish_resolves_to_low [(0, scenarioB_bar)] 0 "5m"
    c10_prediction c10_record scenarioB_bar rfl rfl

/-! Cone-calibration classification and normalization (claims C3, C4, C5). -/

lemma foldCone_within_10pct (c : ConeCalibration) (p : ℚ) :
    (foldCone c p).within_10pct =
      if 0.4 ≤ p ∧ p ≤ 0.6 then c.within_10pct + 1 else c.within_10pct := by
  simp only [foldCone]
  split_ifs <;> rfl

lemma foldCone_within_25pct (c : ConeCalibration) (p : ℚ) :
    (foldCone c p).within_25pct =
      if 0.25 ≤ p ∧ p ≤ 0.75 then c.within_25pct + 1 else c.within_25pct := by
  simp only [foldCone]
  split_ifs <;> rfl

lemma foldCone_within_50pct (c : ConeCalibration) (p : ℚ) :
    (foldCone c p).within_50pct =
      if 0 ≤ p ∧ p ≤ 1 then c.within_50pct + 1 else c.within_50pct := by
  simp only [foldCone]
  split_ifs <;> rfl

lemma foldCone_outside_50pct (c : ConeCalibration) (p : ℚ) :
    (foldCone c p).outside_50pct =
      if 0 ≤ p ∧ p ≤ 1 then c.outside_50pct else c.outside_50pct + 1 := by
  simp only [foldCone]
  split_ifs <;> rfl

/-- Concrete fit record with cone percentile exactly 0.5 (Scenario C's
centered outcome). -/
def c3_trade : FitRecord :=
  ⟨0, "1d", "TREND", "BULLISH", true, 580.5, 581, 580.25, 580.5, 2, true,
    0.5, 0.8⟩

/-- C3: folding a fit record classifies its cone percentile with the
non-exclusive bucket rule — [0.4, 0.6] increments within_10pct,
[0.25, 0.75] increments within_25pct, [0, 1] increments within_50pct, a
percentile outside [0, 1] increments only outside_50pct — and a single
record with percentile 0.5 increments all three inner buckets at once. -/
theorem c3_cone_bucket_classification (results : Results) (trade : FitRecord) :
    ((0.4 ≤ trade.cone_percentile ∧ trade.cone_percentile ≤ 0.6) →
      (update_statistics results trade).cone_calibration.within_10pct =
        results.cone_calibration.within_10pct + 1) ∧
    (¬(0.4 ≤ trade.cone_percentile ∧ trade.cone_percentile ≤ 0.6) →
      (update_statistics results trade).cone_calibration.within_10pct =
        results.cone_calibration.within_10pct) ∧
    ((0.25 ≤ trade.cone_percentile ∧ trade.cone_percentile ≤ 0.75) →
      (update_statistics results trade).cone_calibration.within_25pct =
        results.cone_calibration.within_25pct + 1) ∧
    (¬(0.25 ≤ trade.cone_percentile ∧ trade.cone_percentile ≤ 0.75) →
      (update_statistics results trade).cone_calibration.within_25pct =
        results.cone_calibration.within_25pct) ∧
    ((0 ≤ trade.cone_percentile ∧ trade.cone_percentile ≤ 1) →
      (update_statistics results trade).cone_calibration.within_50pct =
        results.cone_calibration.within_50pct + 1 ∧
      (update_statistics results trade).cone_calibration.outside_50pct =
        results.cone_calibration.outside_50pct) ∧
    (¬(0 ≤ trade.cone_percentile ∧ trade.cone_percentile ≤ 1) →
      (update_statistics results trade).cone_calibration.outside_50pct =
        results.cone_calibration.outside_50pct + 1 ∧
      (update_statistics results trade).cone_calibration.within_10pct =
        results.cone_calibration.within_10pct ∧
      (update_statistics results trade).cone_calibration.within_25pct =
        results.cone_calibration.within_25pct ∧
      (update_statistics results trade).cone_calibration.within_50pct =
        results.cone_calibration.within_50pct) ∧
    (update_statistics initialResults c3_trade).cone_calibration =
      ⟨1, 1, 1, 0⟩ := by
  have hc : (update_statistics results trade).cone_calibration =
      foldCone results.cone_calibration trade.cone_percentile := rfl
  refine ⟨fun h => ?_, fun h => ?_, fun h => ?_, fun h => ?_, fun h => ?_,
    fun h => ?_, ?_⟩
  · rw [hc, foldCone_within_10pct, if_pos h]
  · rw [hc, foldCone_within_10pct, if_neg h]
  · rw [hc, foldCone_within_25pct, if_pos h]
  · rw [hc, foldCone_within_25pct, if_neg h]
  · exact ⟨by rw [hc, foldCone_within_50pct, if_pos h],
      by rw [hc, foldCone_outside_50pct, if_pos h]⟩
  · have h1 : ¬(0.4 ≤ trade.cone_percentile ∧ trade.cone_percentile ≤ 0.6) :=
      fun hx => h ⟨by linarith [hx.1], by linarith [hx.2]⟩
    have h2 : ¬(0.25 ≤ trade.cone_percentile ∧ trade.cone_percentile ≤ 0.75) :=
      fun hx => h ⟨by linarith [hx.1], by linarith [hx.2]⟩
    exact ⟨by rw [hc, foldCone_outside_50pct, if_neg h],
      by rw [hc, foldCone_within_10pct, if_neg h1],
      by rw [hc, foldCone_within_25pct, if_neg h2],
      by rw [hc, foldCone_within_50pct, if_neg h]⟩
  · norm_num [update_statistics, initialResults, foldCone, c3_trade]

/-- Counterexample to C4: after folding exactly one fit record (one cone
check) whose percentile 0.5 lands in all three inner buckets, the finalized
within_50pct bucket is 1/3, not its accumulated count 1 divided by the single
cone check performed (which would be 1): the code divides by the sum of the
four bucket counts, 3. -/
theorem c4_counterexample :
    (finalize_statistics (update_statistics initialResults
        c3_trade)).cone_calibration.within_50pct = 1/3 ∧
      (update_statistics initialResults
        c3_trade).cone_calibration.within_50pct / 1 = 1 ∧
      (1/3 : ℚ) ≠ 1 := by
  refine ⟨?_, ?_, by norm_num⟩
  · norm_num [finalize_statistics, update_statistics, initialResults,
      foldCone, c3_trade, finalizeCone]
  · norm_num [update_statistics, initialResults, foldCone, c3_trade]

/-- C4 (amended): finalization divides each cone-calibration bucket by the
sum of the four accumulated bucket counts — not by the number of cone checks
(folded records), which is smaller whenever a record fell into an inner
bucket. -/
theorem c4_buckets_normalized_by_bucket_sum (r : Results)
    (h : 0 < r.total_trades)
    (ht : 0 < r.cone_calibration.within_10pct +
      r.cone_calibration.within_25pct + r.cone_calibration.within_50pct +
      r.cone_calibration.outside_50pct) :
    (finalize_statistics r).cone_calibration.within_10pct =
      r.cone_calibration.within_10pct /
        (r.cone_calibration.within_10pct + r.cone_calibration.within_25pct +
          r.cone_calibration.within_50pct +
          r.cone_calibration.outside_50pct) ∧
    (finalize_statistics r).cone_calibration.within_25pct =
      r.cone_calibration.within_25pct /
        (r.cone_calibration.within_10pct + r.cone_calibration.within_25pct +
          r.cone_calibration.within_50pct +
          r.cone_calibration.outside_50pct) ∧
    (finalize_statistics r).cone_calibration.within_50pct =
      r.cone_calibration.within_50pct /
        (r.cone_calibration.within_10pct + r.cone_calibration.within_25pct +
          r.cone_calibration.within_50pct +
          r.cone_calibration.outside_50pct) ∧
    (finalize_statistics r).cone_calibration.outside_50pct =
      r.cone_calibration.outside_50pct /
        (r.cone_calibration.within_10pct + r.cone_calibration.within_25pct +
          r.cone_calibration.within_50pct +
          r.cone_calibration.outside_50pct) := by
  have hcone : (finalize_statistics r).cone_calibration =
      finalizeCone r.cone_calibration := by
    unfold finalize_statistics
    rw [if_pos h]
  rw [hcone]
  unfold finalizeCone
  rw [if_pos ht]
  exact ⟨rfl, rfl, rfl, rfl⟩

/-- Witness for the amended C4 at the single-record accumulator. -/
theorem c4_witness :
    (finalize_statistics (update_statistics initialResults
        c3_trade)).cone_calibration.within_10pct =
      (update_statistics initialResults c3_trade).cone_calibration.within_10pct /
        ((update_statistics initialResults c3_trade).cone_calibration.within_10pct +
          (update_statistics initialResults c3_trade).cone_calibration.within_25pct +
          (update_statistics initialResults c3_trade).cone_calibration.within_50pct +
          (update_statistics initialResults c3_trade).cone_calibration.outside_50pct) ∧
    (finalize_statistics (update_statistics initialResults
        c3_trade)).cone_calibration.within_25pct =
      (update_statistics initialResults c3_trade).cone_calibration.within_25pct /
        ((update_statistics initialResults c3_trade).cone_calibration.within_10pct +
          (update_statistics initialResults c3_trade).cone_calibration.within_25pct +
          (update_statistics initialResults c3_trade).cone_calibration.within_50pct +
          (update_statistics initialResults c3_trade).cone_calibration.outside_50pct) ∧
    (finalize_statistics (update_statistics initialResults
        c3_trade)).cone_calibration.within_50pct =
      (update_statistics initialResults c3_trade).cone_calibration.within_50pct /
        ((update_statistics initialResults c3_trade).cone_calibration.within_10pct +
          (update_statistics initialResults c3_trade).cone_calibration.within_25pct +
          (update_statistics initialResults c3_trade).cone_calibration.within_50pct +
          (update_statistics initialResults c3_trade).cone_calibration.outside_50pct) ∧
    (finalize_statistics (update_statistics initialResults
        c3_trade)).cone_calibration.outside_50pct =
      (update_statistics initialResults c3_trade).cone_calibration.outside_50pct /
        ((update_statistics initialResults c3_trade).cone_calibration.within_10pct +
          (update_statistics initialResults c3_trade).cone_calibration.within_25pct +
          (update_statistics initialResults c3_trade).cone_calibration.within_50pct +
          (update_statistics initialResults c3_trade).cone_calibration.outside_50pct) :=
  c4_buckets_normalized_by_bucket_sum (update_statistics initialResults c3_trade)
    (by norm_num [update_statistics, initialResults])
    (by norm_num [update_statistics, initialResults, foldCone, c3_trade])

lemma finalizeTimeframe_idem (s : TimeframeStats) :
    finalizeTimeframe (finalizeTimeframe s) = finalizeTimeframe s := by
  unfold finalizeTimeframe
  by_cases h : 0 < s.trades
  · simp [h]
  · simp [h]

lemma finalizeRegime_idem (s : RegimeStats) :
    finalizeRegime (finalizeRegime s) = finalizeRegime s := by
  unfold finalizeRegime
  by_cases h : 0 < s.trades
  · simp [h]
  · simp [h]

lemma finalizeCone_idem (c : ConeCalibration) :
    finalizeCone (finalizeCone c) = finalizeCone c := by
  by_cases h : 0 < c.within_10pct + c.within_25pct + c.within_50pct +
    c.outside_50pct
  · have h1 : finalizeCone c =
        ⟨c.within_10pct / (c.within_10pct + c.within_25pct + c.within_50pct +
            c.outside_50pct),
          c.within_25pct / (c.within_10pct + c.within_25pct + c.within_50pct +
            c.outside_50pct),
          c.within_50pct / (c.within_10pct + c.within_25pct + c.within_50pct +
            c.outside_50pct),
          c.outside_50pct / (c.within_10pct + c.within_25pct + c.within_50pct +
            c.outside_50pct)⟩ := by
      unfold finalizeCone
      rw [if_pos h]
    rw [h1]
    unfold finalizeCone
    dsimp only
    have hsum : c.within_10pct / (c.within_10pct + c.within_25pct +
          c.within_50pct + c.outside_50pct) +
        c.within_25pct / (c.within_10pct + c.within_25pct + c.within_50pct +
          c.outside_50pct) +
        c.within_50pct / (c.within_10pct + c.within_25pct + c.within_50pct +
          c.outside_50pct) +
        c.outside_50pct / (c.within_10pct + c.within_25pct + c.within_50pct +
          c.outside_50pct) = 1 := by
      rw [div_add_div_same, div_add_div_same, div_add_div_same,
        div_self (ne_of_gt h)]
    rw [hsum, if_pos (by norm_num : (0 : ℚ) < 1)]
    simp [div_one]
  · have h1 : finalizeCone c = c := by
      unfold finalizeCone
      rw [if_neg h]
    rw [h1, h1]

/-- C5: finalization is idempotent — running `finalize_statistics` twice
yields exactly the same summary (the derived rates are recomputed from the
unchanged counters, and the already-normalized cone buckets sum to 1, so the
second normalization divides by 1). -/
theorem c5_finalize_idempotent (r : Results) :
    finalize_statistics (finalize_statistics r) = finalize_statistics r := by
  by_cases h : 0 < r.total_trades
  · have h1 : finalize_statistics r = { r with
        avg_r_multiple := r.total_r_multiple / (r.total_trades : ℚ)
        win_rate := some ((r.winning_trades : ℚ) / (r.total_trades : ℚ))
        by_timeframe :=
          r.by_timeframe.map (fun p => (p.1, finalizeTimeframe p.2))
        by_regime := r.by_regime.map (fun p => (p.1, finalizeRegime p.2))
        cone_calibration := finalizeCone r.cone_calibration } := by
      unfold finalize_statistics
      rw [if_pos h]
    rw [h1]
    unfold finalize_statistics
    rw [if_pos (show 0 < r.total_trades from h)]
    simp [List.map_map, Function.comp_def, finalizeTimeframe_idem,
      finalizeRegime_idem, finalizeCone_idem]
  · have h1 : finalize_statistics r = r := by
      unfold finalize_statistics
      rw [if_neg h]
    rw [h1, h1]

/-! Date window filter (claims C6, C8). -/

lemma earliestKey_nil {α : Type _} (d : Date) :
    earliestKey d ([] : List (Date × α)) = d := rfl

lemma earliestKey_cons {α : Type _} (d : Date) (p : Date × α)
    (t : List (Date × α)) :
    earliestKey d (p :: t) = earliestKey (min d p.1) t := rfl

lemma latestKey_nil {α : Type _} (d : Date) :
    latestKey d ([] : List (Date × α)) = d := rfl

lemma latestKey_cons {α : Type _} (d : Date) (p : Date × α)
    (t : List (Date × α)) :
    latestKey d (p :: t) = latestKey (max d p.1) t := rfl

lemma earliestKey_le_init {α : Type _} (rest : List (Date × α)) :
    ∀ d : Date, earliestKey d rest ≤ d := by
  induction rest with
  | nil => intro d; exact le_of_eq (earliestKey_nil d)
  | cons p t ih =>
    intro d
    rw [earliestKey_cons]
    exact le_trans (ih (min d p.1)) (min_le_left _ _)

lemma earliestKey_le_mem {α : Type _} (rest : List (Date × α)) :
    ∀ d k, k ∈ rest.map Prod.fst → earliestKey d rest ≤ k := by
  induction rest with
  | nil => intro d k hk; simp at hk
  | cons p t ih =>
    intro d k hk
    rw [earliestKey_cons]
    rw [List.map_cons] at hk
    rcases List.mem_cons.mp hk with h | h
    · rw [h]
      exact le_trans (earliestKey_le_init t (min d p.1)) (min_le_right _ _)
    · exact ih (min d p.1) k h

lemma earliestKey_mem {α : Type _} (rest : List (Date × α)) :
    ∀ d : Date, earliestKey d rest = d ∨
      earliestKey d rest ∈ rest.map Prod.fst := by
  induction rest with
  | nil => intro d; exact Or.inl (earliestKey_nil d)
  | cons p t ih =>
    intro d
    rw [earliestKey_cons]
    rcases ih (min d p.1) with h | h
    · rcases min_choice d p.1 with hm | hm
      · exact Or.inl (by rw [h, hm])
      · exact Or.inr (by rw [h, hm]; simp)
    · exact Or.inr (by simpa using Or.inr h)

lemma latestKey_init_le {α : Type _} (rest : List (Date × α)) :
    ∀ d : Date, d ≤ latestKey d rest := by
  induction rest with
  | nil => intro d; exact le_of_eq (latestKey_nil d).symm
  | cons p t ih =>
    intro d
    rw [latestKey_cons]
    exact le_trans (le_max_left _ _) (ih (max d p.1))

lemma latestKey_mem_le {α : Type _} (rest : List (Date × α)) :
    ∀ d k, k ∈ rest.map Prod.fst → k ≤ latestKey d rest := by
  induction rest with
  | nil => intro d k hk; simp at hk
  | cons p t ih =>
    intro d k hk
    rw [latestKey_cons]
    rw [List.map_cons] at hk
    rcases List.mem_cons.mp hk with h | h
    · rw [h]
      exact le_trans (le_max_right _ _) (latestKey_init_le t (max d p.1))
    · exact ih (max d p.1) k h

lemma latestKey_mem {α : Type _} (rest : List (Date × α)) :
    ∀ d : Date, latestKey d rest = d ∨
      latestKey d rest ∈ rest.map Prod.fst := by
  induction rest with
  | nil => intro d; exact Or.inl (latestKey_nil d)
  | cons p t ih =>
    intro d
    rw [latestKey_cons]
    rcases ih (max d p.1) with h | h
    · rcases max_choice d p.1 with hm | hm
      · exact Or.inl (by rw [h, hm])
      · exact Or.inr (by rw [h, hm]; simp)
    · exact Or.inr (by simpa using Or.inr h)

/-- Scenario D's available predictions: every day of 2024-01-10 (day 10)
through 2024-01-20 (day 20), with day numbers counted from 2023-12-31. -/
def scenarioD_predictions : List (Date × Unit) :=
  [(10, ()), (11, ()), (12, ()), (13, ()), (14, ()), (15, ()), (16, ()),
    (17, ()), (18, ()), (19, ()), (20, ())]

/-- C6: on a non-empty prediction set whose clamped window is non-empty, the
date filter defaults the end to the latest available date, defaults the start
to end − months·30 days with months clamped to at least 1, clamps start up to
the earliest available date and end down to the latest, keeps exactly the
entries inside the clamped inclusive window, and reports the requested days
missing at either end; Scenario D (request day 1 → day 31 against data on
days 10-20) clamps to [10, 20] and reports 9 missing days at the start and
11 at the end. -/
theorem c6_date_window_filter {α : Type} (d0 : Date) (v0 : α)
    (rest : List (Date × α)) (start_date end_date : Option Date) (months : ℤ)
    (hcl : max (start_date.getD (end_date.getD (latestKey d0 rest) -
        30 * clampMonths months)) (earliestKey d0 rest) ≤
      min (end_date.getD (latestKey d0 rest)) (latestKey d0 rest)) :
    let preds := (d0, v0) :: rest
    let earliest := earliestKey d0 rest
    let latest := latestKey d0 rest
    let e := end_date.getD latest
    let s := start_date.getD (e - 30 * clampMonths months)
    let cs := max s earliest
    let ce := min e latest
    let out := apply_date_filters preds start_date end_date months
    (1 ≤ clampMonths months) ∧
    (earliest ∈ preds.map Prod.fst ∧ ∀ k ∈ preds.map Prod.fst, earliest ≤ k) ∧
    (latest ∈ preds.map Prod.fst ∧ ∀ k ∈ preds.map Prod.fst, k ≤ latest) ∧
    out.start_date = some cs ∧
    out.end_date = some ce ∧
    (∀ x, x ∈ out.predictions ↔ x ∈ preds ∧ cs ≤ x.1 ∧ x.1 ≤ ce) ∧
    out.missing_start = (if s < cs then some (cs - s) else none) ∧
    out.missing_end = (if ce < e then some (e - ce) else none) ∧
    apply_date_filters scenarioD_predictions (some 1) (some 31) 3 =
      ⟨scenarioD_predictions, some 10, some 20, some 9, some 11⟩ := by
  dsimp only
  have hout : apply_date_filters ((d0, v0) :: rest) start_date end_date months =
      ⟨((d0, v0) :: rest).filter (fun p =>
          decide (max (start_date.getD (end_date.getD (latestKey d0 rest) -
            30 * clampMonths months)) (earliestKey d0 rest) ≤ p.1) &&
          decide (p.1 ≤ min (end_date.getD (latestKey d0 rest))
            (latestKey d0 rest))),
        some (max (start_date.getD (end_date.getD (latestKey d0 rest) -
          30 * clampMonths months)) (earliestKey d0 rest)),
        some (min (end_date.getD (latestKey d0 rest)) (latestKey d0 rest)),
        if start_date.getD (end_date.getD (latestKey d0 rest) -
              30 * clampMonths months) <
            max (start_date.getD (end_date.getD (latestKey d0 rest) -
              30 * clampMonths months)) (earliestKey d0 rest) then
          some (max (start_date.getD (end_date.getD (latestKey d0 rest) -
              30 * clampMonths months)) (earliestKey d0 rest) -
            start_date.getD (end_date.getD (latestKey d0 rest) -
              30 * clampMonths months))
        else none,
        if min (end_date.getD (latestKey d0 rest)) (latestKey d0 rest) <
            end_date.getD (latestKey d0 rest) then
          some (end_date.getD (latestKey d0 rest) -
            min (end_date.getD (latestKey d0 rest)) (latestKey d0 rest))
        else none⟩ := by
    simp only [apply_date_filters]
    rw [if_neg (not_lt.mpr hcl)]
  refine ⟨le_max_left _ _, ⟨?_, ?_⟩, ⟨?_, ?_⟩, ?_, ?_, ?_, ?_, ?_, by decide⟩
  · rcases earliestKey_mem rest d0 with h | h
    · rw [h]; simp
    · simpa using Or.inr h
  · intro k hk
    rw [List.map_cons] at hk
    rcases List.mem_cons.mp hk with h | h
    · rw [h]; exact earliestKey_le_init rest d0
    · exact earliestKey_le_mem rest d0 k h
  · rcases latestKey_mem rest d0 with h | h
    · rw [h]; simp
    · simpa using Or.inr h
  · intro k hk
    rw [List.map_cons] at hk
    rcases List.mem_cons.mp hk with h | h
    · rw [h]; exact latestKey_init_le rest d0
    · exact latestKey_mem_le rest d0 k h
  · rw [hout]
  · rw [hout]
  · intro x
    rw [hout]
    simp [List.mem_filter, and_assoc]
  · rw [hout]
  · rw [hout]

/-- Witness for C6 at Scenario D: requested window [1, 31], data on days
10-20, result clamped to [10, 20] with 9 days missing at the start and 11 at
the end. -/
theorem c6_witness :
    (1 ≤ clampMonths 3) ∧
    ((10 : Date) ∈ scenarioD_predictions.map Prod.fst ∧
      ∀ k ∈ scenarioD_predictions.map Prod.fst, (10 : Date) ≤ k) ∧
    ((20 : Date) ∈ scenarioD_predictions.map Prod.fst ∧
      ∀ k ∈ scenarioD_predictions.map Prod.fst, k ≤ (20 : Date)) ∧
    (apply_date_filters scenarioD_predictions (some 1) (some 31) 3).start_date
      = some 10 ∧
    (apply_date_filters scenarioD_predictions (some 1) (some 31) 3).end_date
      = some 20 ∧
    (∀ x, x ∈ (apply_date_filters scenarioD_predictions (some 1) (some 31)
        3).predictions ↔
      x ∈ scenarioD_predictions ∧ (10 : Date) ≤ x.1 ∧ x.1 ≤ 20) ∧
    (apply_date_filters scenarioD_predictions (some 1) (some 31)
        3).missing_start = some 9 ∧
    (apply_date_filters scenarioD_predictions (some 1) (some 31)
        3).missing_end = some 11 ∧
    apply_date_filters scenarioD_predictions (some 1) (some 31) 3 =
      ⟨scenarioD_predictions, some 10, some 20, some 9, some 11⟩ :=
  c6_date_window_filter 10 () (scenarioD_predictions.tail) (some 1) (some 31)
    3 (by decide)

/-- C8: the date filter on an empty prediction set is a no-op — it returns
the empty set and leaves the caller-supplied start and end dates exactly as
given, with no missing-day report. -/
theorem c8_empty_filter_noop (α : Type) (start_date end_date : Option Date)
    (months : ℤ) :
    apply_date_filters ([] : List (Date × α)) start_date end_date months =
      ⟨[], start_date, end_date, none, none⟩ := rfl

/-! Missing confidence (claim C9). -/

/-- Forecast identical to Scenario B's but with the confidence key absent. -/
def c9_forecast : TimeframeForecast :=
  ⟨some "BULLISH", some 581, some 580.25, some 582, some 578, none⟩

/-- Prediction whose 1h forecast lacks a confidence field. -/
def c9_prediction : Prediction :=
  ⟨none, some 580.5, none, none, [("1h", c9_forecast)]⟩

/-- Counterexample to C9: evaluating a prediction whose timeframe forecast
lacks the confidence key raises `KeyError` (at the `pred["confidence"]`
access in the returned record) instead of degrading to the neutral 0.5. -/
theorem c9_counterexample :
    evaluate_prediction [(0, scenarioB_bar)] 0 "1h" c9_prediction =
      .error "KeyError" := rfl

/-- C9 (amended): the neutral 0.5 confidence default is applied while parsing
API responses, not while evaluating — `parse_api_prediction` (line 367) fills
a missing confidence with the score and, when the score is also absent, with
0.5, so every parsed timeframe forecast carries a present confidence;
`evaluate_prediction` itself raises `KeyError` on a forecast lacking the key
(the counterexample above).  No evaluation-success assertion is made here:
full `parse_api_prediction` outputs carry a flat regime value (line 347) on
which the regime access at line 451 raises `AttributeError` before any fit
record is built. -/
theorem c9_parse_defaults_missing_confidence (t : ApiTimeframeData)
    (hc : t.confidence = none) :
    (parseTimeframeData t).confidence = some (t.score.getD 0.5) ∧
      ((parseTimeframeData t).confidence).isSome = true ∧
      (t.score = none → (parseTimeframeData t).confidence = some 0.5) := by
  have h : (parseTimeframeData t).confidence =
      some (t.confidence.getD (t.score.getD 0.5)) := rfl
  rw [h, hc]
  exact ⟨rfl, rfl, fun hs => by rw [hs]; rfl⟩

/-- API forecast data for the C9 witness: no confidence and no score. -/
def c9_api_data : ApiTimeframeData :=
  ⟨some "BULLISH", some 581, some 580.25, some 582, some 578, none, none⟩

/-- Witness for the amended C9: with neither confidence nor score present,
parsing defaults the confidence to 0.5. -/
theorem c9_witness :
    (parseTimeframeData c9_api_data).confidence =
        some (c9_api_data.score.getD 0.5) ∧
      ((parseTimeframeData c9_api_data).confidence).isSome = true ∧
      (c9_api_data.score = none →
        (parseTimeframeData c9_api_data).confidence = some 0.5) :=
  c9_parse_defaults_missing_confidence c9_api_data rfl

end Hurricane
